import Mathlib

/-!
# Verification of the TextProcessing document-metrics core

Shallow embedding of `src/document_metrics.py` and `src/cli.py`.

Modelling decisions:
* A Python string is the list of its Unicode code points (`Str`).  `str.lower`
  / `str.upper` are modelled on the ASCII and Latin-1 fragment of Unicode
  case mapping, including the one-to-many expansion `'ß'.upper() == 'SS'`
  (uppercasing a character may yield several code points, so `upperCharStr`
  returns a list and `upperStr` concatenates); on this fragment the model
  agrees with CPython's `str.lower` / `str.upper` exactly.
* `nltk.sent_tokenize` and `nltk.regexp_tokenize` are external collaborators:
  a `DocumentMetrics` is represented by its sentence list together with its
  tokenizer function (the token pattern is fixed at construction time, so the
  tokenizer is one function from a sentence to its token list, and
  `sentence_words` applies it to each sentence independently, as the list
  comprehension in the source does).
* A Python `Counter` is modelled by its `get(key, 0)` view, a total function
  from words to counts; `Counter(list).get(w, 0)` is `list.count w`, and
  `Counter` addition is pointwise addition of these views.
* A Python dict built by `{word: sorted(indices)}` with lookups
  `d.get(word, [])` is modelled by a total function returning the sorted index
  list, `[]` for absent keys; `sorted(set_of_indices)` over indices drawn from
  `enumerate` is the ascending filter of `List.range`.
* Python list indexing `xs[i]` is modelled by `List.getD` with a default; the
  in-bounds invariant proved below shows the default is never consulted.
-/

/-- A Python string: the list of its Unicode code points. -/
abbrev Str := List Nat

/-- Model of Python `str.lower` on one code point, on the ASCII ∪ Latin-1
fragment: `A`-`Z` and `À`-`Þ` (except `×`) shift down by 32, `Ÿ` (U+0178)
maps to `ÿ` (U+00FF); everything else in the fragment is already
lowercase-stable (`ß`.lower() == `ß`). -/
def lowerChar (c : Nat) : Nat :=
  if 65 ≤ c ∧ c ≤ 90 then c + 32
  else if 192 ≤ c ∧ c ≤ 222 ∧ c ≠ 215 then c + 32
  else if c = 376 then 255
  else c

/-- Model of Python `str.upper` on one code point, on the ASCII ∪ Latin-1
fragment.  Uppercasing is one-to-many: `ß` (U+00DF) expands to `SS`, so the
result is a list of code points; `a`-`z` and `à`-`þ` (except `÷`) shift up
by 32, `ÿ` (U+00FF) maps to `Ÿ` (U+0178). -/
def upperCharStr (c : Nat) : List Nat :=
  if c = 223 then [83, 83]
  else if 97 ≤ c ∧ c ≤ 122 then [c - 32]
  else if 224 ≤ c ∧ c ≤ 254 ∧ c ≠ 247 then [c - 32]
  else if c = 255 then [376]
  else [c]

/-- Model of Python `str.lower`. -/
def lowerStr (s : Str) : Str := s.map lowerChar

/-- Model of Python `str.upper`: the concatenation of the per-character
uppercase mappings. -/
def upperStr (s : Str) : Str := (s.map upperCharStr).flatten

/-- `DocumentMetrics` (src/document_metrics.py, class `DocumentMetrics`):
the metrics of one document.  `sentences` is the memoized result of
`nltk.sent_tokenize` on the document's text; `tokenize` is
`nltk.regexp_tokenize` applied with the token pattern fixed at construction.
The memoized caches of the Python class are build-once/read-many, so each
derived property is modelled as a function of this data. -/
structure DocumentMetrics where
  document_name : String
  sentences : List Str
  tokenize : Str → List Str

/-- Default used to model Python list indexing on `DocumentMetrics` lists. -/
def dmDefault : DocumentMetrics := ⟨"", [], fun _ => []⟩

instance : Inhabited DocumentMetrics := ⟨dmDefault⟩

namespace DocumentMetrics

/-- `sentence_words` property:
`[nltk.regexp_tokenize(sentence, self._token_pattern) for sentence in self.sentences]`. -/
def sentence_words (d : DocumentMetrics) : List (List Str) :=
  d.sentences.map d.tokenize

/-- `_flattened_sentence_words`: `reduce(add, self.sentence_words, [])`,
lowercasing every word when `normalize` is true. -/
def flattened_sentence_words (d : DocumentMetrics) (normalize : Bool) : List Str :=
  let words := d.sentence_words.foldl (· ++ ·) []
  if normalize then words.map lowerStr else words

/-- `words` property. -/
def words (d : DocumentMetrics) : List Str :=
  d.flattened_sentence_words false

/-- `words_normalized` property. -/
def words_normalized (d : DocumentMetrics) : List Str :=
  d.flattened_sentence_words true

/-- `word_frequencies` property, `Counter(self.words_normalized)`, as its
`get(w, 0)` view. -/
def word_frequencies (d : DocumentMetrics) : Str → Nat :=
  fun w => d.words_normalized.count w

/-- `word_frequency`: `self.word_frequencies.get(word.lower(), 0)`. -/
def word_frequency (d : DocumentMetrics) (word : Str) : Nat :=
  d.word_frequencies (lowerStr word)

/-- `word_sentences_map` / `_build_word_to_sentences_map`, as the function
from a word to the sorted list of indices of sentences one of whose tokens
lowercases to it (`[]` when the word is not a key of the dict). -/
def word_sentences_map (d : DocumentMetrics) (w : Str) : List Nat :=
  (List.range d.sentence_words.length).filter
    (fun i => (d.sentence_words.getD i []).any (fun t => lowerStr t == w))

/-- Membership of `w` in `self.word_sentences_map.keys()`: some token of some
sentence lowercases to `w` (exactly when the building loop of
`_build_word_to_sentences_map` inserted the key). -/
def word_sentences_map_hasKey (d : DocumentMetrics) (w : Str) : Bool :=
  d.sentence_words.any (fun toks => toks.any (fun t => lowerStr t == w))

/-- `sentences_containing_word`:
`[self.sentences[index] for index in self.word_sentences_map.get(word.lower(), [])]`. -/
def sentences_containing_word (d : DocumentMetrics) (word : Str) : List Str :=
  (d.word_sentences_map (lowerStr word)).map (fun i => d.sentences.getD i [])

end DocumentMetrics

/-- Pointwise addition of `Counter` `get`-views (`Counter.__add__`; keys that
would be dropped for non-positivity have count 0 on both sides, so the
`get(w, 0)` view of the sum is the pointwise sum). -/
def counterAdd (a b : Str → Nat) : Str → Nat := fun w => a w + b w

/-- `DocumentsMetrics` (src/document_metrics.py, class `DocumentsMetrics`):
the aggregate of several `DocumentMetrics` objects. -/
structure DocumentsMetrics where
  docs_metrics : List DocumentMetrics

namespace DocumentsMetrics

/-- `word_frequencies` property:
`reduce(add, [dm.word_frequencies for dm in self._docs_metrics], Counter())`. -/
def word_frequencies (c : DocumentsMetrics) : Str → Nat :=
  (c.docs_metrics.map DocumentMetrics.word_frequencies).foldl counterAdd (fun _ => 0)

/-- `word_frequency`: `self.word_frequencies.get(word.lower(), 0)`. -/
def word_frequency (c : DocumentsMetrics) (word : Str) : Nat :=
  c.word_frequencies (lowerStr word)

/-- `word_document_map` / `_build_word_to_document_map`, as the function from
a word to the sorted list of indices of documents that have it as a key of
their `word_sentences_map` (`[]` for absent keys). -/
def word_document_map (c : DocumentsMetrics) (w : Str) : List Nat :=
  (List.range c.docs_metrics.length).filter
    (fun i => (c.docs_metrics.getD i dmDefault).word_sentences_map_hasKey w)

/-- `document_names_containing_word`:
`[self._docs_metrics[index].document_name for index in self.word_document_map.get(word.lower(), [])]`. -/
def document_names_containing_word (c : DocumentsMetrics) (word : Str) : List String :=
  (c.word_document_map (lowerStr word)).map
    (fun i => (c.docs_metrics.getD i dmDefault).document_name)

/-- `sentences_containing_word`: lowercases the query, collects the document
metrics at the mapped indices, queries each and concatenates with
`reduce(add, sentences, [])`. -/
def sentences_containing_word (c : DocumentsMetrics) (word : Str) : List Str :=
  let w := lowerStr word
  let document_metrics_indices := c.word_document_map w
  let documents_metrics :=
    document_metrics_indices.map (fun i => c.docs_metrics.getD i dmDefault)
  (documents_metrics.map (fun dm => dm.sentences_containing_word w)).foldl (· ++ ·) []

/-- Keys of a Python dict/Counter built by inserting the elements of `l` in
order: first-occurrence order, each key once. -/
def pyKeys (l : List Str) : List Str :=
  l.foldl (fun acc w => if w ∈ acc then acc else acc ++ [w]) []

/-- `self.word_frequencies.keys()` of the aggregate counter: the union of the
documents' normalized word multisets, in insertion order, each word once. -/
def vocabulary_keys (c : DocumentsMetrics) : List Str :=
  pyKeys ((c.docs_metrics.map DocumentMetrics.words_normalized).foldl (· ++ ·) [])

/-- `most_common_words_filtered_by_length`: keep the vocabulary words whose
length lies in `[lower, upper]`, pair each with its corpus frequency, sort
stably by descending frequency (`common.sort(key=freq, reverse=True)`), and
truncate with `common[:n]` when `n` is given (Python slicing clamps, and a
negative `n` yields `[]`, which `Int.toNat` reproduces). -/
def most_common_words_filtered_by_length (c : DocumentsMetrics)
    (length_interval : Int × Int) (n : Option Int) : List (Str × Nat) :=
  let lower := length_interval.1
  let upper := length_interval.2
  let common := (c.vocabulary_keys.filter
      (fun w => decide (lower ≤ (w.length : Int)) && decide ((w.length : Int) ≤ upper))).map
    (fun w => (w, c.word_frequency w))
  let sortedCommon := common.mergeSort (fun a b => b.2 ≤ a.2)
  match n with
  | none => sortedCommon
  | some k => sortedCommon.take k.toNat

end DocumentsMetrics

/-! ## CLI boundary (src/cli.py)

Each typer option callback either raises `typer.BadParameter` or returns the
value; this is modelled with `Except String`.  The `main` command body (which
constructs `EigenController` and calls `run`, the entry into the index layer)
executes only when every callback succeeded, so the whole command is the
monadic chain below, whose `Except.ok` payload records the invocation of the
core layer. -/

/-- `word_length_interval_validation`. -/
def word_length_interval_validation (interval : Int × Int) : Except String (Int × Int) :=
  if interval.1 > interval.2 then
    Except.error "The leading value cannot be greater than the trailing value."
  else
    Except.ok interval

/-- `n_common_words_validation`. -/
def n_common_words_validation (n_common_words : Int) : Except String Int :=
  if n_common_words < 1 then
    Except.error "The n common words value must be greater than 0."
  else
    Except.ok n_common_words

/-- `max_sentence_column_width_validation`. -/
def max_sentence_column_width_validation (column_width : Int) : Except String Int :=
  if column_width < 40 then
    Except.error "The given maximum sentence column width must be greater than 39."
  else
    Except.ok column_width

/-- The arguments with which `main`'s body invokes `EigenController.run`:
produced only after all validation callbacks succeed. -/
structure CoreInvocation where
  word_length_interval : Int × Int
  n_common_words : Int
  max_sentence_column_width : Int
deriving DecidableEq

/-- Model of the typer command `main`: run the validation callbacks, then
invoke the core layer (`EigenController.run`) with the validated values. -/
def cli_main (word_length_interval : Int × Int) (n_common_words : Int)
    (max_sentence_column_width : Int) : Except String CoreInvocation := do
  let interval ← word_length_interval_validation word_length_interval
  let n ← n_common_words_validation n_common_words
  let width ← max_sentence_column_width_validation max_sentence_column_width
  Except.ok (CoreInvocation.mk interval n width)

/-! ## Concrete instances used by the witnesses (not part of the embedding) -/

/-- Example tokenizer for witnesses: split a sentence at spaces (code 32). -/
def exTokenize (s : Str) : List Str :=
  (s.foldr
    (fun c acc =>
      if c == 32 then [] :: acc
      else
        match acc with
        | [] => [[c]]
        | w :: ws => (c :: w) :: ws)
    [[]]).filter (fun w => !w.isEmpty)

/-- Example document: one sentence "Hi". -/
def exDoc1 : DocumentMetrics :=
  { document_name := "a.txt", sentences := [[72, 105]], tokenize := exTokenize }

/-- Example document: sentences "yo" and "hi hi". -/
def exDoc2 : DocumentMetrics :=
  { document_name := "b.txt",
    sentences := [[121, 111], [104, 105, 32, 104, 105]],
    tokenize := exTokenize }

/-- Example corpus of the two documents above. -/
def exCorpus : DocumentsMetrics := ⟨[exDoc1, exDoc2]⟩

/-- Document whose single sentence is the single word "ß" (U+00DF). -/
def exDocSZ : DocumentMetrics :=
  { document_name := "sz.txt", sentences := [[223]], tokenize := exTokenize }

/-- Corpus of the single document "ß", used to refute case-invariance of
lookup under uppercasing. -/
def exCorpusSZ : DocumentsMetrics := ⟨[exDocSZ]⟩

example : exDoc2.words_normalized = [[121, 111], [104, 105], [104, 105]] := by decide
example : exCorpus.word_frequency [72, 105] = 3 := by decide
example : exCorpus.document_names_containing_word [72, 105] = ["a.txt", "b.txt"] := by decide
example : exCorpus.sentences_containing_word [72, 105]
    = [[72, 105], [104, 105, 32, 104, 105]] := by decide
unseal List.merge List.mergeSort in
example : exCorpus.most_common_words_filtered_by_length (2, 2) (some 1)
    = [([104, 105], 3)] := by decide

/-! ## General lemmas about the embedding -/

theorem foldl_append_eq {α : Type} (ls : List (List α)) (init : List α) :
    ls.foldl (· ++ ·) init = init ++ ls.flatten := by
  induction ls generalizing init with
  | nil => simp
  | cons a t ih => simp [ih]

theorem foldl_counterAdd_apply (fs : List (Str → Nat)) (g : Str → Nat) (w : Str) :
    (fs.foldl counterAdd g) w = g w + (fs.map (fun f => f w)).sum := by
  induction fs generalizing g with
  | nil => simp
  | cons f t ih => simp [counterAdd, ih, Nat.add_assoc]

theorem lowerChar_lowerChar (c : Nat) : lowerChar (lowerChar c) = lowerChar c := by
  unfold lowerChar
  split_ifs <;> omega

theorem lowerStr_lowerStr (s : Str) : lowerStr (lowerStr s) = lowerStr s := by
  simp [lowerStr, List.map_map, Function.comp_def, lowerChar_lowerChar]

theorem upperCharStr_map_lowerChar_of_ascii (c : Nat) (h : c < 128) :
    (upperCharStr c).map lowerChar = [lowerChar c] := by
  unfold upperCharStr
  split_ifs with h1 h2 h3 h4
  · exfalso; omega
  · have hc : lowerChar (c - 32) = lowerChar c := by
      unfold lowerChar; split_ifs <;> omega
    simp [hc]
  · exfalso; omega
  · exfalso; omega
  · simp

theorem lowerStr_upperStr_of_ascii (s : Str) (h : ∀ ch ∈ s, ch < 128) :
    lowerStr (upperStr s) = lowerStr s := by
  induction s with
  | nil => rfl
  | cons a t ih =>
    have ha : a < 128 := h a (List.mem_cons_self a t)
    have ht : ∀ ch ∈ t, ch < 128 := fun ch hch => h ch (List.mem_cons_of_mem a hch)
    have hih := ih ht
    simp only [upperStr, lowerStr, List.map_cons, List.flatten_cons,
      List.map_append] at hih ⊢
    rw [upperCharStr_map_lowerChar_of_ascii a ha, hih]
    rfl

theorem words_normalized_eq_flatten (d : DocumentMetrics) :
    d.words_normalized = d.sentence_words.flatten.map lowerStr := by
  simp [DocumentMetrics.words_normalized, DocumentMetrics.flattened_sentence_words,
    foldl_append_eq]

theorem hasKey_iff_mem_words_normalized (d : DocumentMetrics) (w : Str) :
    d.word_sentences_map_hasKey w = true ↔ w ∈ d.words_normalized := by
  simp only [DocumentMetrics.word_sentences_map_hasKey, words_normalized_eq_flatten,
    List.any_eq_true, List.mem_map, List.mem_flatten, beq_iff_eq]
  constructor
  · rintro ⟨toks, htoks, t, ht, hw⟩
    exact ⟨t, ⟨toks, htoks, ht⟩, hw⟩
  · rintro ⟨t, ⟨toks, htoks, ht⟩, hw⟩
    exact ⟨toks, htoks, t, ht, hw⟩

theorem natSum_eq_zero_iff (l : List Nat) : l.sum = 0 ↔ ∀ x ∈ l, x = 0 := by
  induction l with
  | nil => simp
  | cons a t ih => simp [ih, Nat.add_eq_zero]

theorem corpus_frequency_sum (c : DocumentsMetrics) (word : Str) :
    c.word_frequency word
      = (c.docs_metrics.map (fun dm => dm.word_frequency word)).sum := by
  unfold DocumentsMetrics.word_frequency DocumentsMetrics.word_frequencies
  rw [foldl_counterAdd_apply]
  simp [List.map_map, Function.comp_def, DocumentMetrics.word_frequency]

/-! ## Claim theorems -/

/-- Claim C1: for every word and every corpus, the corpus-level word frequency
is the sum of the per-document word frequencies. -/
theorem claim_corpus_frequency_is_sum (c : DocumentsMetrics) (word : Str) :
    c.word_frequency word
      = (c.docs_metrics.map (fun dm => dm.word_frequency word)).sum :=
  corpus_frequency_sum c word

/-- Claim C2 counterexample: in the corpus of the single document whose one
token is "ß" (U+00DF), the query "ß" has corpus frequency 1, but its
uppercase "SS" has frequency 0: lookup is not invariant under uppercasing
the query word, because `str.upper` expands `ß` to the two-letter `SS`
whose lowercase `ss` differs from `ß`. -/
theorem claim_frequency_case_insensitive_counterexample :
    upperStr [223] = [83, 83]
    ∧ exCorpusSZ.word_frequency [223] = 1
    ∧ exCorpusSZ.word_frequency (upperStr [223]) = 0
    ∧ exCorpusSZ.word_frequency (upperStr [223]) ≠ exCorpusSZ.word_frequency [223] := by
  decide

/-- Claim C2 as amended: word-frequency lookup, at corpus level and at
document level, is always invariant under lowercasing the query word; it is
invariant under uppercasing the query word when the word consists of ASCII
characters (one-to-many Unicode uppercase expansions such as "ß" → "SS"
break the uppercase equality, as the counterexample shows). -/
theorem claim_frequency_case_insensitive (c : DocumentsMetrics)
    (d : DocumentMetrics) (word : Str) :
    c.word_frequency (lowerStr word) = c.word_frequency word
    ∧ d.word_frequency (lowerStr word) = d.word_frequency word
    ∧ ((∀ ch ∈ word, ch < 128) →
        c.word_frequency (upperStr word) = c.word_frequency word
        ∧ d.word_frequency (upperStr word) = d.word_frequency word) := by
  refine ⟨?_, ?_, fun hascii => ⟨?_, ?_⟩⟩
  · simp [DocumentsMetrics.word_frequency, lowerStr_lowerStr]
  · simp [DocumentMetrics.word_frequency, lowerStr_lowerStr]
  · simp [DocumentsMetrics.word_frequency, lowerStr_upperStr_of_ascii _ hascii]
  · simp [DocumentMetrics.word_frequency, lowerStr_upperStr_of_ascii _ hascii]

/-- Claim C2 witness: the ASCII word "Hi" in the example corpus, where both
case-changed lookups agree with the original. -/
theorem claim_frequency_case_insensitive_witness :
    (∀ ch ∈ ([72, 105] : Str), ch < 128)
    ∧ (exCorpus.word_frequency (lowerStr [72, 105]) = exCorpus.word_frequency [72, 105]
       ∧ exDoc2.word_frequency (lowerStr [72, 105]) = exDoc2.word_frequency [72, 105]
       ∧ exCorpus.word_frequency (upperStr [72, 105]) = exCorpus.word_frequency [72, 105]
       ∧ exDoc2.word_frequency (upperStr [72, 105]) = exDoc2.word_frequency [72, 105]) :=
  ⟨by decide,
   (claim_frequency_case_insensitive exCorpus exDoc2 [72, 105]).1,
   (claim_frequency_case_insensitive exCorpus exDoc2 [72, 105]).2.1,
   ((claim_frequency_case_insensitive exCorpus exDoc2 [72, 105]).2.2 (by decide)).1,
   ((claim_frequency_case_insensitive exCorpus exDoc2 [72, 105]).2.2 (by decide)).2⟩

/-- Claim C3: a word occurring in no document of the corpus has corpus
frequency 0, and the corpus-level document-name and sentence lookups return
empty lists (no error is possible: all three operations are total). -/
theorem claim_unknown_word_empty_results (c : DocumentsMetrics) (word : Str)
    (h : ∀ dm ∈ c.docs_metrics, lowerStr word ∉ dm.words_normalized) :
    c.word_frequency word = 0
    ∧ c.document_names_containing_word word = []
    ∧ c.sentences_containing_word word = [] := by
  have hmap : c.word_document_map (lowerStr word) = [] := by
    simp only [DocumentsMetrics.word_document_map, List.filter_eq_nil_iff, List.mem_range]
    intro i hi
    have hmem : c.docs_metrics.getD i dmDefault ∈ c.docs_metrics := by
      rw [List.getD_eq_getElem?_getD, List.getElem?_eq_getElem hi]
      exact List.getElem_mem hi
    intro hk
    exact h _ hmem ((hasKey_iff_mem_words_normalized _ _).1 hk)
  refine ⟨?_, ?_, ?_⟩
  · rw [corpus_frequency_sum, natSum_eq_zero_iff]
    intro x hx
    rcases List.mem_map.1 hx with ⟨dm, hdm, rfl⟩
    exact List.count_eq_zero.2 (h dm hdm)
  · simp [DocumentsMetrics.document_names_containing_word, hmap]
  · simp [DocumentsMetrics.sentences_containing_word, hmap]

/-- Claim C3 witness: the word "zz" occurs in no document of the example
corpus, and all three lookups return the empty result on it. -/
theorem claim_unknown_word_empty_results_witness :
    (∀ dm ∈ exCorpus.docs_metrics, lowerStr [122, 122] ∉ dm.words_normalized)
    ∧ (exCorpus.word_frequency [122, 122] = 0
       ∧ exCorpus.document_names_containing_word [122, 122] = []
       ∧ exCorpus.sentences_containing_word [122, 122] = []) :=
  ⟨by decide, claim_unknown_word_empty_results exCorpus [122, 122] (by decide)⟩

/-- Claim C6: every sentence index stored in a document's word-to-sentences
map is a valid index into its sentence list, and every document index stored
in the corpus word-to-document map is a valid index into the document list. -/
theorem claim_index_maps_within_bounds :
    (∀ (d : DocumentMetrics) (w : Str) (i : Nat),
        i ∈ d.word_sentences_map w → i < d.sentences.length)
    ∧ (∀ (c : DocumentsMetrics) (w : Str) (j : Nat),
        j ∈ c.word_document_map w → j < c.docs_metrics.length) := by
  constructor
  · intro d w i hi
    have h1 : i < d.sentence_words.length :=
      List.mem_range.1 (List.mem_filter.1 hi).1
    simpa [DocumentMetrics.sentence_words] using h1
  · intro c w j hj
    exact List.mem_range.1 (List.mem_filter.1 hj).1

/-- Claim C6 witness: concrete in-bounds indices obtained from the maps of
the example document and corpus. -/
theorem claim_index_maps_within_bounds_witness :
    (1 ∈ exDoc2.word_sentences_map [104, 105] ∧ 1 < exDoc2.sentences.length)
    ∧ (1 ∈ exCorpus.word_document_map [104, 105] ∧ 1 < exCorpus.docs_metrics.length) :=
  ⟨⟨by decide, claim_index_maps_within_bounds.1 exDoc2 [104, 105] 1 (by decide)⟩,
   ⟨by decide, claim_index_maps_within_bounds.2 exCorpus [104, 105] 1 (by decide)⟩⟩

/-- Claim C7: the per-sentence token structure is aligned with the sentence
list: the two lists have the same length and the i-th token list is the
tokenizer applied to the i-th sentence alone. -/
theorem claim_sentence_tokens_aligned (d : DocumentMetrics) :
    d.sentence_words.length = d.sentences.length
    ∧ ∀ i, i < d.sentences.length →
        d.sentence_words.getD i [] = d.tokenize (d.sentences.getD i []) := by
  constructor
  · simp [DocumentMetrics.sentence_words]
  · intro i hi
    simp [DocumentMetrics.sentence_words, List.getD_eq_getElem?_getD,
      List.getElem?_eq_getElem, hi]

/-- Claim C7 witness: alignment of the example document's token structure,
and the instantiated tokenization equation at index 1. -/
theorem claim_sentence_tokens_aligned_witness :
    exDoc2.sentence_words.length = exDoc2.sentences.length
    ∧ 1 < exDoc2.sentences.length
    ∧ exDoc2.sentence_words.getD 1 [] = exDoc2.tokenize (exDoc2.sentences.getD 1 []) :=
  ⟨(claim_sentence_tokens_aligned exDoc2).1, by decide,
   (claim_sentence_tokens_aligned exDoc2).2 1 (by decide)⟩

/-- Claim C8: a malformed length interval (lower > upper) and a non-positive
common-words limit are each rejected by their validation callback with an
invalid-argument error, and the CLI command then never reaches its body, so
the core layer is not invoked. -/
theorem claim_cli_rejects_invalid_before_core (lower upper n width : Int) :
    (lower > upper →
      (∃ msg, word_length_interval_validation (lower, upper) = Except.error msg)
      ∧ ∀ inv, cli_main (lower, upper) n width ≠ Except.ok inv)
    ∧ (n < 1 →
      (∃ msg, n_common_words_validation n = Except.error msg)
      ∧ ∀ inv, cli_main (lower, upper) n width ≠ Except.ok inv) := by
  constructor
  · intro h
    constructor
    · exact ⟨"The leading value cannot be greater than the trailing value.",
        by simp [word_length_interval_validation, h]⟩
    · intro inv
      simp [cli_main, word_length_interval_validation, h, Bind.bind, Except.bind]
  · intro h
    constructor
    · exact ⟨"The n common words value must be greater than 0.",
        by simp [n_common_words_validation, h]⟩
    · intro inv
      unfold cli_main word_length_interval_validation n_common_words_validation
      split_ifs with h1 <;>
        simp [Bind.bind, Except.bind, n_common_words_validation, h]

/-- Claim C8 witness: the interval (5, 2) and the limit 0 are both rejected
and the core layer is never invoked on them. -/
theorem claim_cli_rejects_invalid_before_core_witness :
    ((5 : Int) > 2
     ∧ (∃ msg, word_length_interval_validation (5, 2) = Except.error msg)
     ∧ ∀ inv, cli_main (5, 2) 0 100 ≠ Except.ok inv)
    ∧ ((0 : Int) < 1
     ∧ (∃ msg, n_common_words_validation 0 = Except.error msg)
     ∧ ∀ inv, cli_main (5, 2) 0 100 ≠ Except.ok inv) :=
  ⟨⟨by decide,
    ((claim_cli_rejects_invalid_before_core 5 2 0 100).1 (by decide)).1,
    ((claim_cli_rejects_invalid_before_core 5 2 0 100).1 (by decide)).2⟩,
   ⟨by decide,
    ((claim_cli_rejects_invalid_before_core 5 2 0 100).2 (by decide)).1,
    ((claim_cli_rejects_invalid_before_core 5 2 0 100).2 (by decide)).2⟩⟩

/-! ## Ordering and indexing lemmas -/

theorem word_sentences_map_pairwise (d : DocumentMetrics) (w : Str) :
    (d.word_sentences_map w).Pairwise (· < ·) :=
  List.Pairwise.sublist (List.filter_sublist _) (List.pairwise_lt_range _)

theorem word_document_map_pairwise (c : DocumentsMetrics) (w : Str) :
    (c.word_document_map w).Pairwise (· < ·) :=
  List.Pairwise.sublist (List.filter_sublist _) (List.pairwise_lt_range _)

theorem sentences_containing_word_lower (d : DocumentMetrics) (word : Str) :
    d.sentences_containing_word (lowerStr word) = d.sentences_containing_word word := by
  simp [DocumentMetrics.sentences_containing_word, lowerStr_lowerStr]

theorem filter_range_getD_sublist {α : Type} :
    ∀ (s : List α) (P : Nat → Bool) (dflt : α),
      (((List.range s.length).filter P).map (fun i => s.getD i dflt)).Sublist s
  | [], _, _ => by simp
  | a :: t, P, dflt => by
    rw [List.length_cons, List.range_succ_eq_map, List.filter_cons, List.filter_map]
    by_cases h0 : P 0
    · simp only [if_pos h0, List.map_cons, List.map_map, List.getD_cons_zero]
      apply List.Sublist.cons₂
      have h := filter_range_getD_sublist t (fun i => P (i + 1)) dflt
      simpa [Function.comp_def] using h
    · simp only [if_neg h0, List.map_map]
      apply List.Sublist.cons
      have h := filter_range_getD_sublist t (fun i => P (i + 1)) dflt
      simpa [Function.comp_def] using h

theorem word_document_map_mem (c : DocumentsMetrics) (w : Str) (i : Nat) :
    i ∈ c.word_document_map w
      ↔ i < c.docs_metrics.length
        ∧ w ∈ (c.docs_metrics.getD i dmDefault).words_normalized := by
  simp [DocumentsMetrics.word_document_map, List.mem_filter, List.mem_range,
    hasKey_iff_mem_words_normalized]

theorem natSum_pos_iff (l : List Nat) : 0 < l.sum ↔ ∃ x ∈ l, 0 < x := by
  rw [Nat.pos_iff_ne_zero, Ne, natSum_eq_zero_iff]
  push_neg
  simp [Nat.pos_iff_ne_zero]

theorem exists_mem_iff_exists_getD (l : List DocumentMetrics)
    (P : DocumentMetrics → Prop) :
    (∃ dm ∈ l, P dm) ↔ ∃ i, i < l.length ∧ P (l.getD i dmDefault) := by
  constructor
  · rintro ⟨dm, hdm, hP⟩
    rcases List.mem_iff_getElem.1 hdm with ⟨i, hi, rfl⟩
    exact ⟨i, hi, by rwa [List.getD_eq_getElem?_getD, List.getElem?_eq_getElem hi]⟩
  · rintro ⟨i, hi, hP⟩
    refine ⟨l.getD i dmDefault, ?_, hP⟩
    rw [List.getD_eq_getElem?_getD, List.getElem?_eq_getElem hi]
    exact List.getElem_mem hi

/-- Claim C9: the sentence indices stored for a word are strictly increasing
and duplicate-free, and the document-level sentence lookup is a subsequence
of the document's sentence list (each stored sentence index used once, even
when the word occurs several times inside one sentence). -/
theorem claim_document_sentences_no_duplicates (d : DocumentMetrics) (word : Str) :
    (d.word_sentences_map (lowerStr word)).Pairwise (· < ·)
    ∧ (d.word_sentences_map (lowerStr word)).Nodup
    ∧ (d.sentences_containing_word word).Sublist d.sentences := by
  refine ⟨word_sentences_map_pairwise d _, ?_, ?_⟩
  · exact (word_sentences_map_pairwise d _).imp Nat.ne_of_lt
  · have hlen : d.sentence_words.length = d.sentences.length := by
      simp [DocumentMetrics.sentence_words]
    unfold DocumentMetrics.sentences_containing_word DocumentMetrics.word_sentences_map
    rw [hlen]
    exact filter_range_getD_sublist d.sentences _ []

/-- Claim C9 witness: on the example document where "hi" occurs twice inside
sentence 1, the stored index list is the duplicate-free [1] and the lookup
result is a subsequence of the sentence list. -/
theorem claim_document_sentences_no_duplicates_witness :
    (exDoc2.word_sentences_map (lowerStr [72, 105])).Pairwise (· < ·)
    ∧ (exDoc2.word_sentences_map (lowerStr [72, 105])).Nodup
    ∧ (exDoc2.sentences_containing_word [72, 105]).Sublist exDoc2.sentences :=
  claim_document_sentences_no_duplicates exDoc2 [72, 105]

/-- Claim C5: the corpus-level sentence lookup is the concatenation, over the
document indices containing the word in ascending order, of the per-document
sentence lookups; the document indices are strictly increasing and are
exactly the in-range indices of documents containing the normalized word, and
within each document the stored sentence indices are strictly increasing. -/
theorem claim_corpus_sentences_concat_in_order (c : DocumentsMetrics) (word : Str) :
    c.sentences_containing_word word
      = ((c.word_document_map (lowerStr word)).map
          (fun i => (c.docs_metrics.getD i dmDefault).sentences_containing_word word)).flatten
    ∧ (c.word_document_map (lowerStr word)).Pairwise (· < ·)
    ∧ (∀ i, i ∈ c.word_document_map (lowerStr word)
        ↔ i < c.docs_metrics.length
          ∧ lowerStr word ∈ (c.docs_metrics.getD i dmDefault).words_normalized)
    ∧ ∀ (d : DocumentMetrics) (w : Str), (d.word_sentences_map w).Pairwise (· < ·) := by
  refine ⟨?_, word_document_map_pairwise c _,
    fun i => word_document_map_mem c _ i,
    fun d w => word_sentences_map_pairwise d w⟩
  simp only [DocumentsMetrics.sentences_containing_word]
  rw [foldl_append_eq]
  simp [List.map_map, Function.comp_def, sentences_containing_word_lower]

/-- Claim C5 witness: instantiation at the example corpus and the word "Hi",
which occurs in both documents. -/
theorem claim_corpus_sentences_concat_in_order_witness :
    exCorpus.sentences_containing_word [72, 105]
      = ((exCorpus.word_document_map (lowerStr [72, 105])).map
          (fun i => (exCorpus.docs_metrics.getD i dmDefault).sentences_containing_word
            [72, 105])).flatten
    ∧ (exCorpus.word_document_map (lowerStr [72, 105])).Pairwise (· < ·)
    ∧ (∀ i, i ∈ exCorpus.word_document_map (lowerStr [72, 105])
        ↔ i < exCorpus.docs_metrics.length
          ∧ lowerStr [72, 105]
              ∈ (exCorpus.docs_metrics.getD i dmDefault).words_normalized)
    ∧ ∀ (d : DocumentMetrics) (w : Str), (d.word_sentences_map w).Pairwise (· < ·) :=
  claim_corpus_sentences_concat_in_order exCorpus [72, 105]

/-- Claim C10: a word has positive corpus frequency exactly when the list of
documents containing it is non-empty: the aggregate frequency table and the
word-to-document index cover the same normalized words. -/
theorem claim_frequency_pos_iff_documents_nonempty (c : DocumentsMetrics) (word : Str) :
    0 < c.word_frequency word ↔ c.document_names_containing_word word ≠ [] := by
  rw [corpus_frequency_sum, natSum_pos_iff]
  have h1 : (∃ x ∈ c.docs_metrics.map (fun dm => dm.word_frequency word), 0 < x)
      ↔ ∃ dm ∈ c.docs_metrics, lowerStr word ∈ dm.words_normalized := by
    simp [DocumentMetrics.word_frequency, DocumentMetrics.word_frequencies,
      List.count_pos_iff]
  rw [h1, exists_mem_iff_exists_getD]
  constructor
  · rintro ⟨i, hi, hmem⟩
    intro hnil
    have hent : c.word_document_map (lowerStr word) = [] := by
      simpa [DocumentsMetrics.document_names_containing_word] using hnil
    have : i ∈ c.word_document_map (lowerStr word) :=
      (word_document_map_mem c _ i).2 ⟨hi, hmem⟩
    rw [hent] at this
    cases this
  · intro hnil
    rcases hent : c.word_document_map (lowerStr word) with _ | ⟨i, rest⟩
    · exact absurd (by simp [DocumentsMetrics.document_names_containing_word, hent]) hnil
    · have : i ∈ c.word_document_map (lowerStr word) := by
        rw [hent]; exact List.mem_cons_self i rest
      rcases (word_document_map_mem c _ i).1 this with ⟨hi, hmem⟩
      exact ⟨i, hi, hmem⟩

/-- Claim C10 witness: instantiation at the example corpus and the word "yo",
present only in the second document. -/
theorem claim_frequency_pos_iff_documents_nonempty_witness :
    0 < exCorpus.word_frequency [121, 111]
      ↔ exCorpus.document_names_containing_word [121, 111] ≠ [] :=
  claim_frequency_pos_iff_documents_nonempty exCorpus [121, 111]

/-- Claim C4: with a positive limit n the ranked list has at most n entries;
with or without a limit every returned word's length lies in the interval and
the entries are sorted by descending frequency; with no limit every
vocabulary word whose length qualifies appears (no truncation). -/
theorem claim_most_common_bounded_sorted (c : DocumentsMetrics)
    (lower upper n : Int) (_hn : 0 < n) :
    (c.most_common_words_filtered_by_length (lower, upper) (some n)).length ≤ n.toNat
    ∧ (∀ p ∈ c.most_common_words_filtered_by_length (lower, upper) (some n),
        lower ≤ (p.1.length : Int) ∧ (p.1.length : Int) ≤ upper)
    ∧ (c.most_common_words_filtered_by_length (lower, upper) (some n)).Pairwise
        (fun a b => b.2 ≤ a.2)
    ∧ (c.most_common_words_filtered_by_length (lower, upper) none).Pairwise
        (fun a b => b.2 ≤ a.2)
    ∧ (∀ p ∈ c.most_common_words_filtered_by_length (lower, upper) none,
        lower ≤ (p.1.length : Int) ∧ (p.1.length : Int) ≤ upper)
    ∧ ∀ w ∈ c.vocabulary_keys,
        lower ≤ (w.length : Int) → (w.length : Int) ≤ upper →
          (w, c.word_frequency w)
            ∈ c.most_common_words_filtered_by_length (lower, upper) none := by
  have hsome : c.most_common_words_filtered_by_length (lower, upper) (some n)
      = (((c.vocabulary_keys.filter
            (fun w => decide (lower ≤ (w.length : Int))
              && decide ((w.length : Int) ≤ upper))).map
          (fun w => (w, c.word_frequency w))).mergeSort
            (fun a b => decide (b.2 ≤ a.2))).take n.toNat := rfl
  have hnone : c.most_common_words_filtered_by_length (lower, upper) none
      = ((c.vocabulary_keys.filter
            (fun w => decide (lower ≤ (w.length : Int))
              && decide ((w.length : Int) ≤ upper))).map
          (fun w => (w, c.word_frequency w))).mergeSort
            (fun a b => decide (b.2 ≤ a.2)) := rfl
  have htrans : ∀ (a b d : Str × Nat),
      (fun x y : Str × Nat => decide (y.2 ≤ x.2)) a b = true →
      (fun x y : Str × Nat => decide (y.2 ≤ x.2)) b d = true →
      (fun x y : Str × Nat => decide (y.2 ≤ x.2)) a d = true := by
    intro a b d hab hbd
    simp only [decide_eq_true_eq] at hab hbd ⊢
    omega
  have htotal : ∀ (a b : Str × Nat),
      ((fun x y : Str × Nat => decide (y.2 ≤ x.2)) a b
        || (fun x y : Str × Nat => decide (y.2 ≤ x.2)) b a) = true := by
    intro a b
    simp only [Bool.or_eq_true, decide_eq_true_eq]
    omega
  have hsorted : ∀ (l : List (Str × Nat)),
      (l.mergeSort (fun a b => decide (b.2 ≤ a.2))).Pairwise
        (fun a b : Str × Nat => b.2 ≤ a.2) := by
    intro l
    exact (List.sorted_mergeSort htrans htotal l).imp (fun hab => by simpa using hab)
  have hbounds : ∀ p : Str × Nat,
      p ∈ (c.vocabulary_keys.filter
            (fun w => decide (lower ≤ (w.length : Int))
              && decide ((w.length : Int) ≤ upper))).map
          (fun w => (w, c.word_frequency w)) →
      lower ≤ (p.1.length : Int) ∧ (p.1.length : Int) ≤ upper := by
    intro p hp
    rcases List.mem_map.1 hp with ⟨w, hw, rfl⟩
    rcases List.mem_filter.1 hw with ⟨-, hcond⟩
    simpa using hcond
  refine ⟨?_, ?_, ?_, ?_, ?_, ?_⟩
  · rw [hsome]
    exact List.length_take_le _ _
  · intro p hp
    rw [hsome] at hp
    exact hbounds p (List.mem_mergeSort.1 (List.mem_of_mem_take hp))
  · rw [hsome]
    exact List.Pairwise.sublist (List.take_sublist _ _) (hsorted _)
  · rw [hnone]
    exact hsorted _
  · intro p hp
    rw [hnone] at hp
    exact hbounds p (List.mem_mergeSort.1 hp)
  · intro w hw hlo hhi
    rw [hnone]
    refine List.mem_mergeSort.2 (List.mem_map.2 ⟨w, List.mem_filter.2 ⟨hw, ?_⟩, rfl⟩)
    simp [hlo, hhi]

/-- Claim C4 witness: the example corpus queried with interval (2, 2) and the
positive limit 1. -/
theorem claim_most_common_bounded_sorted_witness :
    (0 : Int) < 1
    ∧ ((exCorpus.most_common_words_filtered_by_length (2, 2) (some 1)).length
          ≤ (1 : Int).toNat
       ∧ (∀ p ∈ exCorpus.most_common_words_filtered_by_length (2, 2) (some 1),
           (2 : Int) ≤ (p.1.length : Int) ∧ (p.1.length : Int) ≤ (2 : Int))
       ∧ (exCorpus.most_common_words_filtered_by_length (2, 2) (some 1)).Pairwise
           (fun a b => b.2 ≤ a.2)
       ∧ (exCorpus.most_common_words_filtered_by_length (2, 2) none).Pairwise
           (fun a b => b.2 ≤ a.2)
       ∧ (∀ p ∈ exCorpus.most_common_words_filtered_by_length (2, 2) none,
           (2 : Int) ≤ (p.1.length : Int) ∧ (p.1.length : Int) ≤ (2 : Int))
       ∧ ∀ w ∈ exCorpus.vocabulary_keys,
           (2 : Int) ≤ (w.length : Int) → (w.length : Int) ≤ (2 : Int) →
             (w, exCorpus.word_frequency w)
               ∈ exCorpus.most_common_words_filtered_by_length (2, 2) none) :=
  ⟨by decide, claim_most_common_bounded_sorted exCorpus 2 2 1 (by decide)⟩
